import Mathlib

/-!
# Verification of `Assets/generate_assets.py`

A shallow embedding of the asset-generator script of the Jade repository.

Modelling conventions:

* A PIL image is a value of the inductive `Img`: a blank canvas created by
  `Image.new` together with the ordered list of drawing operations issued on
  it, plus the `resize` and `paste` combinators the script uses.  Pixel
  rasterisation is not modelled; an image is identified with the exact
  sequence of drawing calls (and their arguments) that produced it, which is
  what determines the rendered pixels and hence the PNG bytes.
* Filesystem effects (`os.makedirs`, `Image.save`) are recorded as an ordered
  effect trace (`Eff`); a small operational semantics `execTrace` interprets a
  trace against a set of existing directories, with `Except` modelling Python
  exception propagation (a save into a missing directory raises).
* Python's global `random` module is modelled deterministically: the state is
  fully determined by `random.seed(n)`, and `random.randint` is a pure
  function of the state.  The concrete generator below is a linear
  congruential stand-in for CPython's Mersenne Twister; every property proved
  here depends only on determinism, on seeding replacing the whole state, and
  on the range of `randint`, never on the concrete stream values.
* Font lookup (`ImageFont.truetype`) depends on the host system; it is
  abstracted as a `FontEnv` telling which paths exist (`os.path.exists`) and
  which `truetype` calls succeed, plus the text-measurement result of
  `draw.textbbox`.  `Except Unit` models the exception a failing `truetype`
  raises; the `try/except` chains of the script appear as `match` on it.
* Python `//` is floor division (`Int.fdiv`); `int(x)` applied to the
  positive float products `n * 0.45`, `n * 0.55`, `n * 0.5`, `n * 0.42`,
  `n * 0.03`, `n * 0.85`, `n * 1.2` of the script agrees with the exact
  rational floor `(n * num) / den` at every argument the script uses (checked
  against IEEE-754 double rounding), which is how `int_floor_mul` models it.
  Exact (non-integral) float coordinates such as `size * 0.05` in text
  positions are modelled as exact rationals.
* Coordinates passed to drawing calls are rationals (ℚ); the script passes
  ints everywhere except the text y-positions just mentioned.
-/

namespace GenAssets

/-- Python floor division `a // b` on integers. -/
def pydiv (a b : Int) : Int := Int.fdiv a b

/-- `int(n * (num/den))` for a natural `n` and a positive decimal constant
`num/den`, as Python computes it in IEEE doubles.  At every call site of the
script (`n * 0.45`, `n * 0.55`, `n * 0.5`, `n * 0.42`, `n * 0.03` with
`n ∈ {64,128,256}`, `r * 0.85`, `r * 1.2` with `r ∈ {75,96,100,125}`) the
float result truncates to the same integer as the exact rational floor. -/
def int_floor_mul (n : Nat) (num den : Nat) : Int := ((n * num) / den : Nat)

/-- A colour argument as passed to a PIL drawing call. -/
inductive Color where
  | hex (s : String)
  | rgb (r g b : Int)
  | rgba (r g b a : Int)
  | gray (v : Int)
deriving DecidableEq

/-- A font value as produced by `ImageFont.truetype` / `ImageFont.load_default`. -/
inductive Font where
  | truetype (path : String) (size : Int)
  | default
deriving DecidableEq

/-- One drawing call on a PIL `ImageDraw` object, with the arguments the
script passes (width values the script omits are PIL's defaults). -/
inductive DrawOp where
  | line (pts : List (ℚ × ℚ)) (fill : Color) (width : Int)
  | rectangle (xy : ℚ × ℚ × ℚ × ℚ) (fill : Color)
  | ellipse (xy : ℚ × ℚ × ℚ × ℚ) (fill : Option Color) (outline : Option Color) (width : Int)
  | arc (xy : ℚ × ℚ × ℚ × ℚ) (start stop : Int) (fill : Color) (width : Int)
  | polygon (pts : List (ℚ × ℚ)) (fill : Color)
  | roundedRectangle (xy : ℚ × ℚ × ℚ × ℚ) (radius : Int) (fill : Color)
  | text (pos : ℚ × ℚ) (content : String) (font : Font) (fill : Color)
deriving DecidableEq

/-- A PIL image: a canvas plus everything done to it. -/
inductive Img where
  | new (mode : String) (width height : Nat) (background : Color)
  | drawn (base : Img) (ops : List DrawOp)
  | resized (base : Img) (width height : Nat)
  | pasted (base : Img) (src : Img) (pos : Int × Int) (mask : Img)
deriving DecidableEq

/-- Pixel width of an image (`resize` sets it, drawing and pasting keep it). -/
def Img.width : Img → Nat
  | .new _ w _ _ => w
  | .drawn b _ => b.width
  | .resized _ w _ => w
  | .pasted b _ _ _ => b.width

/-- Pixel height of an image. -/
def Img.height : Img → Nat
  | .new _ _ h _ => h
  | .drawn b _ => b.height
  | .resized _ _ h => h
  | .pasted b _ _ _ => b.height

/-- An output path, as components relative to `ASSETS_DIR` (the directory of
the script, which `os.path.join` prefixes to every path it writes). -/
abbrev Path := List String

/-- A filesystem effect issued by the script, in program order. -/
inductive Eff where
  | makedirs (p : Path)
  | save (p : Path) (image : Img)
deriving DecidableEq

/-- Is this effect an `os.makedirs` call? -/
def Eff.isMakedirs : Eff → Bool
  | .makedirs _ => true
  | .save _ _ => false

/-- The `(path, image)` pairs saved by a trace, in order. -/
def savesOf (effs : List Eff) : List (Path × Img) :=
  effs.filterMap fun e => match e with
    | .save p i => some (p, i)
    | .makedirs _ => none

/-- The paths saved by a trace, in order. -/
def savePaths (effs : List Eff) : List Path := (savesOf effs).map Prod.fst

/-- The `(width, height)` of each saved image, in order. -/
def saveDims (effs : List Eff) : List (Nat × Nat) :=
  (savesOf effs).map fun pi => (pi.2.width, pi.2.height)

/-- The image a trace saves at a path (first save wins; the script never
saves one path twice). -/
def savedAt (effs : List Eff) (p : Path) : Option Img :=
  effs.findSome? fun e => match e with
    | .save q i => if q = p then some i else none
    | .makedirs _ => none

/-- Shorthand for an integer point passed to a drawing call. -/
def pt (x y : Int) : ℚ × ℚ := ((x : ℚ), (y : ℚ))

/-! ## The `random` module (deterministic model) -/

/-- State of Python's global random generator. -/
abbrev PyRng := Nat

/-- `random.seed(n)`: the state is a function of the seed alone. -/
def pySeed (n : Nat) : PyRng := n

/-- One step of the generator (a linear congruential stand-in; see the
header comment). -/
def rngStep (s : PyRng) : PyRng := (1103515245 * s + 12345) % 2147483648

/-- `random.randint(a, b)`: a uniform draw from `[a, b]` (both ends
included), advancing the global state. -/
def randint (a b : Int) (s : PyRng) : Int × PyRng :=
  let s' := rngStep s
  (a + ((s' % (b - a + 1).toNat : Nat) : Int), s')

/-! ## `create_board_styles` -/

/-- `max(0, min(255, c))`, the clamp the wood-grain colour uses. -/
def pyClamp (c : Int) : Int := max 0 (min 255 c)

/-- One iteration of the wood-grain loop (lines 185–192 of the script):
four `randint` draws, a clamped colour, one vertical stroke. -/
def grainStep (s : PyRng) : DrawOp × PyRng :=
  let size : Int := 1024
  let (x, s1) := randint 0 (size - 1) s
  let (y, s2) := randint 0 (size - 1) s1
  let (length, s3) := randint 20 100 s2
  let (color_var, s4) := randint (-20) 20 s3
  -- base_color = (232, 212, 162); each channel is max(0, min(255, c + color_var))
  let color := Color.rgb (pyClamp (232 + color_var)) (pyClamp (212 + color_var))
      (pyClamp (162 + color_var))
  (.line [pt x y, pt x (y + length)] color 1, s4)

/-- The 5000-iteration wood-grain loop. -/
def grainOps : Nat → PyRng → List DrawOp × PyRng
  | 0, s => ([], s)
  | n + 1, s =>
    let (op, s') := grainStep s
    let (rest, s'') := grainOps n s'
    (op :: rest, s'')

/-- The grid, river and palace-diagonal lines of a 1024×1024 board, drawn
with the given colour and width.  The script repeats this block verbatim for
the wood (width 2) and the two modern (width 1) styles. -/
def boardGridOps (line_color : Color) (w : Int) : List DrawOp :=
  let size : Int := 1024
  let margin : Int := 80
  let grid_size : Int := size - 2 * margin
  -- horizontal lines
  (((List.range 10).map fun i =>
    let y := margin + pydiv ((i : Int) * grid_size) 9
    DrawOp.line [pt margin y, pt (size - margin) y] line_color w) ++
  -- vertical lines, split at the river
  ((List.range 9).flatMap fun i =>
    let x := margin + pydiv ((i : Int) * grid_size) 8
    [DrawOp.line [pt x margin, pt x (margin + pydiv (4 * grid_size) 9)] line_color w,
     DrawOp.line [pt x (margin + pydiv (5 * grid_size) 9), pt x (size - margin)] line_color w])) ++
  -- palace diagonals
  (let palace_margin_x := margin + pydiv (3 * grid_size) 8
   let palace_width := pydiv (2 * grid_size) 8
   let palace_top := margin
   let palace_bottom := margin + pydiv (4 * grid_size) 9
   let palace_mid_top := margin + pydiv (5 * grid_size) 9
   let palace_mid_bottom := size - margin
   [DrawOp.line [pt palace_margin_x palace_top, pt (palace_margin_x + palace_width) palace_bottom] line_color w,
    DrawOp.line [pt (palace_margin_x + palace_width) palace_top, pt palace_margin_x palace_bottom] line_color w,
    DrawOp.line [pt palace_margin_x palace_mid_bottom, pt (palace_margin_x + palace_width) palace_mid_top] line_color w,
    DrawOp.line [pt (palace_margin_x + palace_width) palace_mid_bottom, pt palace_margin_x palace_mid_top] line_color w])

/-- `create_board_styles`: wood texture (seeded `random.seed(42)`) plus the
two modern styles, saved under `BoardStyles/` — for which **no** `makedirs`
is issued.  Takes the incoming global RNG state and returns the trace with
the outgoing state; the incoming state is dead because `seed(42)` replaces
it before the first draw. -/
def create_board_styles (_s : PyRng) : List Eff × PyRng :=
  let size : Nat := 1024
  let g := grainOps 5000 (pySeed 42)
  let wood_img := Img.drawn (Img.new "RGB" size size (.hex "#E8D4A2"))
      (g.1 ++ boardGridOps (.hex "#5C4033") 2)
  let modern_light := Img.drawn (Img.new "RGB" size size (.hex "#F5F5F7"))
      (boardGridOps (.hex "#8E8E93") 1)
  let modern_dark := Img.drawn (Img.new "RGB" size size (.hex "#1C1C1E"))
      (boardGridOps (.hex "#636366") 1)
  ([.save ["BoardStyles", "Board_Wood.png"] wood_img,
    .save ["BoardStyles", "Board_Modern_Light.png"] modern_light,
    .save ["BoardStyles", "Board_Modern_Dark.png"] modern_dark], g.2)

/-- The path of the wood-textured board. -/
def boardWoodPath : Path := ["BoardStyles", "Board_Wood.png"]

/-- A deterministic stand-in for PIL's PNG encoder: every image determines
its byte stream (the four-byte PNG signature followed by a structural
serialisation).  Only determinism of the encoding matters here. -/
def encodeInt (i : Int) : List Nat :=
  if i < 0 then [0, i.natAbs] else [1, i.natAbs]

/-- Serialise a rational coordinate. -/
def encodeRat (q : ℚ) : List Nat := encodeInt q.num ++ [q.den]

/-- Serialise a string. -/
def encodeStr (s : String) : List Nat := s.length :: s.toList.map Char.toNat

/-- Serialise a colour. -/
def encodeColor : Color → List Nat
  | .hex s => 0 :: encodeStr s
  | .rgb r g b => 1 :: encodeInt r ++ encodeInt g ++ encodeInt b
  | .rgba r g b a => 2 :: encodeInt r ++ encodeInt g ++ encodeInt b ++ encodeInt a
  | .gray v => 3 :: encodeInt v

/-- Serialise a font. -/
def encodeFont : Font → List Nat
  | .truetype p sz => 0 :: encodeStr p ++ encodeInt sz
  | .default => [1]

/-- Serialise a point list. -/
def encodePts (pts : List (ℚ × ℚ)) : List Nat :=
  pts.flatMap fun p => encodeRat p.1 ++ encodeRat p.2

/-- Serialise one drawing call. -/
def encodeOp : DrawOp → List Nat
  | .line pts f w => 0 :: encodePts pts ++ encodeColor f ++ encodeInt w
  | .rectangle (a, b, c, d) f =>
      1 :: encodeRat a ++ encodeRat b ++ encodeRat c ++ encodeRat d ++ encodeColor f
  | .ellipse (a, b, c, d) f o w =>
      2 :: encodeRat a ++ encodeRat b ++ encodeRat c ++ encodeRat d ++
        (f.map encodeColor).getD [] ++ (o.map encodeColor).getD [] ++ encodeInt w
  | .arc (a, b, c, d) st en f w =>
      3 :: encodeRat a ++ encodeRat b ++ encodeRat c ++ encodeRat d ++
        encodeInt st ++ encodeInt en ++ encodeColor f ++ encodeInt w
  | .polygon pts f => 4 :: encodePts pts ++ encodeColor f
  | .roundedRectangle (a, b, c, d) r f =>
      5 :: encodeRat a ++ encodeRat b ++ encodeRat c ++ encodeRat d ++
        encodeInt r ++ encodeColor f
  | .text (x, y) s fo f =>
      6 :: encodeRat x ++ encodeRat y ++ encodeStr s ++ encodeFont fo ++ encodeColor f

/-- Structural serialisation of an image. -/
def encodeImg : Img → List Nat
  | .new m w h bgc => 0 :: encodeStr m ++ [w, h] ++ encodeColor bgc
  | .drawn b ops => 1 :: encodeImg b ++ ops.flatMap encodeOp
  | .resized b w h => 2 :: encodeImg b ++ [w, h]
  | .pasted b src (x, y) mask =>
      3 :: encodeImg b ++ encodeImg src ++ encodeInt x ++ encodeInt y ++ encodeImg mask

/-- The PNG bytes PIL writes for an image (modelled: deterministic in the
image). -/
def pngEncode (i : Img) : List Nat := 137 :: 80 :: 78 :: 71 :: encodeImg i

/-- C1: Re-running the generator reproduces byte-identical output for the
textured assets: `create_board_styles` seeds the random generator with the
fixed seed 42 before drawing the wood-grain texture, so for every pair of
runs (arbitrary incoming global RNG states `s₁`, `s₂`) the `Board_Wood`
image — and hence its PNG byte stream — is identical between the runs. -/
theorem create_board_styles_two_run_identical (s₁ s₂ : PyRng) :
    savedAt (create_board_styles s₁).1 boardWoodPath =
      savedAt (create_board_styles s₂).1 boardWoodPath ∧
    (savedAt (create_board_styles s₁).1 boardWoodPath).map pngEncode =
      (savedAt (create_board_styles s₂).1 boardWoodPath).map pngEncode :=
  ⟨rfl, rfl⟩

/-! ## Fonts and the host environment -/

/-- The left, top, right, bottom corners returned by `draw.textbbox`. -/
structure BBox where
  x0 : Int
  y0 : Int
  x1 : Int
  y1 : Int

/-- The host-dependent behaviour of PIL's font machinery: which font files
exist (`os.path.exists`), which `ImageFont.truetype` calls succeed, and what
`draw.textbbox` measures for a font and string. -/
structure FontEnv where
  pathExists : String → Bool
  truetypeOk : String → Bool
  bbox : Font → String → BBox

/-- `ImageFont.truetype(path, size)`: raises (`.error`) unless the host can
load the font. -/
def tryTruetype (env : FontEnv) (path : String) (size : Int) : Except Unit Font :=
  if env.truetypeOk path then .ok (.truetype path size) else .error ()

/-- The `font_paths` candidate list shared by `create_traditional_piece`,
`create_modern_piece` and the glyph of `create_launch_screen`. -/
def font_paths : List String :=
  ["/System/Library/Fonts/STHeiti Light.ttc",
   "/System/Library/Fonts/PingFang.ttc",
   "/System/Library/Fonts/Hiragino Sans GB.ttc"]

/-- The candidate loop of the piece routines: for each path, if it exists,
try `truetype` (catching its exception and moving on); if the loop ends with
no font, fall back to `ImageFont.load_default()`. -/
def findPieceFontE (env : FontEnv) (size : Int) : List String → Except Unit Font
  | [] => .ok Font.default
  | p :: rest =>
    if env.pathExists p then
      match tryTruetype env p size with
      | .ok f => .ok f
      | .error _ => findPieceFontE env size rest
    else findPieceFontE env size rest

/-- The nested `try/except` of `create_app_icon` (lines 138–146): STHeiti at
size 240, else PingFang, else the default font. -/
def resolveAppIconFontE (env : FontEnv) : Except Unit Font :=
  match tryTruetype env "/System/Library/Fonts/STHeiti Light.ttc" 240 with
  | .ok f => .ok f
  | .error _ =>
    match tryTruetype env "/System/Library/Fonts/PingFang.ttc" 240 with
    | .ok f => .ok f
    | .error _ => .ok Font.default

/-- The nested `try/except` for the launch-screen app-name font (lines
697–703): SF Pro Display Semibold at 36, else Helvetica, else default. -/
def resolveLaunchNameFontE (env : FontEnv) : Except Unit Font :=
  match tryTruetype env "/System/Library/Fonts/SFProDisplay-Semibold.otf" 36 with
  | .ok f => .ok f
  | .error _ =>
    match tryTruetype env "/System/Library/Fonts/Helvetica.ttc" 36 with
    | .ok f => .ok f
    | .error _ => .ok Font.default

/-- Unwrap a resolution result (the resolvers above never return `.error`,
as proved below). -/
def fontOf : Except Unit Font → Font
  | .ok f => f
  | .error _ => Font.default

/-- Did the computation finish without an uncaught exception? -/
def exOk : Except Unit Font → Bool
  | .ok _ => true
  | .error _ => false

/-! ## `save_iconset` and `create_app_icon` -/

/-- The size table of `save_iconset`: `(pixel size, filename label)`. -/
def iconset_sizes : List (Nat × String) :=
  [(16, "16x16"),
   (32, "16x16@2x"),
   (32, "32x32"),
   (64, "32x32@2x"),
   (128, "128x128"),
   (256, "128x128@2x"),
   (256, "256x256"),
   (512, "256x256@2x"),
   (512, "512x512"),
   (1024, "512x512@2x")]

/-- `save_iconset(image, name, iconset_dir)`: create the directory, then for
each table entry save a LANCZOS resize of `image` to
`iconset_dir/<name>_<label>.png`. -/
def save_iconset (image : Img) (name : String) (iconset_dir : Path) : List Eff :=
  Eff.makedirs iconset_dir ::
    iconset_sizes.map fun e =>
      Eff.save (iconset_dir ++ [name ++ "_" ++ e.2 ++ ".png"]) (Img.resized image e.1 e.1)

/-- The 1024-line vertical gradient of the app-icon background (lines
100–105): `int(44 + 16·(y/1024))` for red and green, `int(46 + 18·(y/1024))`
for blue — exact, since `y/1024` and the products are dyadic. -/
def appIconGradientOps : List DrawOp :=
  (List.range 1024).map fun y =>
    let r : Nat := 44 + (16 * y) / 1024
    let g : Nat := 44 + (16 * y) / 1024
    let b : Nat := 46 + (18 * y) / 1024
    DrawOp.line [pt 0 (y : Int), pt 1024 (y : Int)] (Color.rgb (r : Int) (g : Int) (b : Int)) 0

/-- The master 1024×1024 app-icon canvas: gradient, piece circles and the
"帅" glyph.  (The `bg` image of lines 113–116 is built pixel-by-pixel and
then never used — dead local state, saved nowhere — so it does not appear in
any output image.) -/
def appIconMaster (env : FontEnv) : Img :=
  let size : Int := 1024
  let piece_radius : Int := 280
  let cx : Int := pydiv size 2
  let cy : Int := pydiv size 2
  let inner_radius : Int := 240
  let font := fontOf (resolveAppIconFontE env)
  let bb := env.bbox font "帅"
  let text_width := bb.x1 - bb.x0
  let text_height := bb.y1 - bb.y0
  let text_x := cx - pydiv text_width 2 - bb.x0
  let text_y := cy - pydiv text_height 2 - bb.y0 - 10
  Img.drawn (Img.new "RGBA" 1024 1024 (.rgba 0 0 0 0))
    (appIconGradientOps ++
     [DrawOp.ellipse ((cx - piece_radius : Int), (cy - piece_radius : Int),
        (cx + piece_radius : Int), (cy + piece_radius : Int))
        (some (.hex "#CC0000")) (some (.hex "#990000")) 8,
      DrawOp.ellipse ((cx - inner_radius : Int), (cy - inner_radius : Int),
        (cx + inner_radius : Int), (cy + inner_radius : Int))
        (some (.hex "#F5F0E6")) none 1,
      DrawOp.text ((text_x : ℚ), (text_y : ℚ)) "帅" font (.hex "#CC0000")])

/-- The rounded-corner mask (radius 200 on an `L` canvas). -/
def appIconMask : Img :=
  Img.drawn (Img.new "L" 1024 1024 (.gray 0))
    [DrawOp.roundedRectangle ((0 : ℚ), (0 : ℚ), (1024 : ℚ), (1024 : ℚ)) 200 (.gray 255)]

/-- `final_img`: the master pasted onto a fresh transparent canvas through
the rounded mask. -/
def appIconFinal (env : FontEnv) : Img :=
  Img.pasted (Img.new "RGBA" 1024 1024 (.rgba 0 0 0 0)) (appIconMaster env) (0, 0) appIconMask

/-- `create_app_icon`: the iconset under `Icons/AppIcon.iconset` plus the
full-resolution master saved as `Icons/AppIcon_1024.png`. -/
def create_app_icon (env : FontEnv) : List Eff :=
  save_iconset (appIconFinal env) "AppIcon" ["Icons", "AppIcon.iconset"] ++
    [Eff.save ["Icons", "AppIcon_1024.png"] (appIconFinal env)]

/-! ## `create_pieces` -/

/-- The seven red characters. -/
def red_pieces : List String := ["帅", "仕", "相", "傌", "俥", "炮", "兵"]

/-- The seven black characters. -/
def black_pieces : List String := ["将", "士", "象", "马", "车", "砲", "卒"]

/-- The three piece pixel sizes. -/
def piece_sizes : List Nat := [64, 128, 256]

/-- `create_traditional_piece(size, char, color)`: bordered disc with the
glyph, on a transparent `size`×`size` canvas. -/
def create_traditional_piece (env : FontEnv) (size : Nat) (char : String)
    (color : String) : Img :=
  let center : Int := pydiv (size : Int) 2
  let radius : Int := int_floor_mul size 45 100
  let border_color : Color := if color = "red" then .hex "#CC0000" else .hex "#1A1A1A"
  let bg_color : Color := .hex "#F5F0E6"
  let text_color : Color := if color = "red" then .hex "#CC0000" else .hex "#1A1A1A"
  let font_size : Int := int_floor_mul size 55 100
  let font := fontOf (findPieceFontE env font_size font_paths)
  let bb := env.bbox font char
  let text_width := bb.x1 - bb.x0
  let text_height := bb.y1 - bb.y0
  let text_x := center - pydiv text_width 2 - bb.x0
  -- center - text_height // 2 - bbox[1] - size * 0.05  (a float in Python)
  let text_y : ℚ := ((center - pydiv text_height 2 - bb.y0 : Int) : ℚ) - (size : ℚ) * (5 / 100)
  Img.drawn (Img.new "RGBA" size size (.rgba 0 0 0 0))
    [DrawOp.ellipse ((center - radius - 2 : Int), (center - radius - 2 : Int),
       (center + radius + 2 : Int), (center + radius + 2 : Int))
       (some border_color) none 1,
     DrawOp.ellipse ((center - radius : Int), (center - radius : Int),
       (center + radius : Int), (center + radius : Int)) (some bg_color) none 1,
     DrawOp.text ((text_x : ℚ), text_y) char font text_color]

/-- `create_modern_piece(size, char, color)`: flat disc with shadow and the
glyph, on a transparent `size`×`size` canvas. -/
def create_modern_piece (env : FontEnv) (size : Nat) (char : String)
    (color : String) : Img :=
  let center : Int := pydiv (size : Int) 2
  let radius : Int := int_floor_mul size 42 100
  let bg_color : Color := if color = "red" then .hex "#FF3B30" else .hex "#1C1C1E"
  let text_color : Color := .hex "#FFFFFF"
  let shadow_color : Color := if color = "red" then .hex "#CC2E24" else .hex "#000000"
  let shadow_offset : Int := int_floor_mul size 3 100
  let font_size : Int := int_floor_mul size 50 100
  let font := fontOf (findPieceFontE env font_size font_paths)
  let bb := env.bbox font char
  let text_width := bb.x1 - bb.x0
  let text_height := bb.y1 - bb.y0
  let text_x := center - pydiv text_width 2 - bb.x0
  let text_y : ℚ := ((center - pydiv text_height 2 - bb.y0 : Int) : ℚ) - (size : ℚ) * (5 / 100)
  Img.drawn (Img.new "RGBA" size size (.rgba 0 0 0 0))
    [DrawOp.ellipse ((center - radius + shadow_offset : Int), (center - radius + shadow_offset : Int),
       (center + radius + shadow_offset : Int), (center + radius + shadow_offset : Int))
       (some shadow_color) none 1,
     DrawOp.ellipse ((center - radius : Int), (center - radius : Int),
       (center + radius : Int), (center + radius : Int)) (some bg_color) none 1,
     DrawOp.text ((text_x : ℚ), text_y) char font text_color]

/-- `create_pieces`: for each size, the Traditional then the Modern style
directory, each with files `Red_<i>.png` / `Black_<i>.png` for
`enumerate(zip(red_pieces, black_pieces))`. -/
def create_pieces (env : FontEnv) : List Eff :=
  piece_sizes.flatMap fun size =>
    let trad_dir : Path := ["PieceStyles", "Traditional", toString size]
    let modern_dir : Path := ["PieceStyles", "Modern", toString size]
    (Eff.makedirs trad_dir ::
      (red_pieces.zip black_pieces).enum.flatMap fun ic =>
        [Eff.save (trad_dir ++ ["Red_" ++ toString ic.1 ++ ".png"])
           (create_traditional_piece env size ic.2.1 "red"),
         Eff.save (trad_dir ++ ["Black_" ++ toString ic.1 ++ ".png"])
           (create_traditional_piece env size ic.2.2 "black")]) ++
    (Eff.makedirs modern_dir ::
      (red_pieces.zip black_pieces).enum.flatMap fun ic =>
        [Eff.save (modern_dir ++ ["Red_" ++ toString ic.1 ++ ".png"])
           (create_modern_piece env size ic.2.1 "red"),
         Eff.save (modern_dir ++ ["Black_" ++ toString ic.1 ++ ".png"])
           (create_modern_piece env size ic.2.2 "black")])

/-! ## `create_toolbar_icons` -/

/-- The icon table (name, type, colour), in the script's dict order. -/
def toolbar_icons : List (String × String × String) :=
  [("NewGame", "new", "#007AFF"),
   ("Undo", "undo", "#5856D6"),
   ("Hint", "hint", "#FF9500"),
   ("Settings", "settings", "#8E8E93"),
   ("Analysis", "analysis", "#34C759")]

/-- The three drawn pixel sizes. -/
def toolbar_sizes : List Nat := [18, 24, 36]

/-- The `@2x` suffix rule: empty for drawn sizes up to 24. -/
def toolbarSuffix (size : Int) : String := if size ≤ 24 then "" else "@2x"

/-- The size written into the filename: halved for sizes over 24. -/
def toolbarSaveSize (size : Int) : Int := if size ≤ 24 then size else pydiv size 2

/-- The filename of a toolbar icon at a drawn size. -/
def toolbarFileName (icon_name : String) (size : Int) : String :=
  icon_name ++ "_" ++ toString (toolbarSaveSize size) ++ "x" ++
    toString (toolbarSaveSize size) ++ toolbarSuffix size ++ ".png"

/-- The drawing calls of one toolbar icon (the if/elif chain on
`icon_type`). -/
def toolbarOps (icon_type : String) (color : Color) (size : Int) : List DrawOp :=
  let center := pydiv size 2
  let stroke := max 1 (pydiv size 12)
  if icon_type = "new" then
    [DrawOp.line [pt center stroke, pt center (size - stroke)] color stroke,
     DrawOp.line [pt stroke center, pt (size - stroke) center] color stroke]
  else if icon_type = "undo" then
    let arc_radius := pydiv size 3
    let arrow_x := center - arc_radius
    let arrow_y := center
    [DrawOp.arc ((center - arc_radius : Int), (center - arc_radius : Int),
       (center + arc_radius : Int), (center + arc_radius : Int)) 200 340 color stroke,
     DrawOp.polygon [pt arrow_x arrow_y, pt (arrow_x + stroke * 2) (arrow_y - stroke),
       pt (arrow_x + stroke * 2) (arrow_y + stroke)] color]
  else if icon_type = "hint" then
    let bulb_radius := pydiv size 3
    [DrawOp.ellipse ((center - bulb_radius : Int), (center - bulb_radius - stroke : Int),
       (center + bulb_radius : Int), (center + bulb_radius - stroke : Int))
       (some color) (some color) 1,
     DrawOp.rectangle ((center - stroke : Int), (center + stroke : Int),
       (center + stroke : Int), (center + bulb_radius + stroke * 2 : Int)) color]
  else if icon_type = "settings" then
    let gear_radius := pydiv size 3
    [DrawOp.ellipse ((center - gear_radius : Int), (center - gear_radius : Int),
       (center + gear_radius : Int), (center + gear_radius : Int)) none (some color) stroke,
     DrawOp.ellipse ((center - stroke : Int), (center - stroke : Int),
       (center + stroke : Int), (center + stroke : Int)) (some color) none 1]
  else if icon_type = "analysis" then
    [DrawOp.line [pt (stroke * 2) (size - stroke * 2), pt (stroke * 2) (stroke * 2)] color stroke,
     DrawOp.line [pt (stroke * 2) (size - stroke * 2), pt (size - stroke * 2) (size - stroke * 2)]
       color stroke,
     DrawOp.line [pt (stroke * 4) (size - stroke * 4), pt (pydiv size 3) (pydiv size 2),
       pt (pydiv size 2) (pydiv size 3), pt (size - stroke * 4) (stroke * 4)] color stroke]
  else []

/-- A toolbar icon image at a drawn size. -/
def toolbarImg (icon_type : String) (color : String) (size : Nat) : Img :=
  Img.drawn (Img.new "RGBA" size size (.rgba 0 0 0 0)) (toolbarOps icon_type (.hex color) size)

/-- `create_toolbar_icons`: one `makedirs`, then per icon and per drawn size
one save under `Toolbar/`, named by `toolbarFileName`. -/
def create_toolbar_icons : List Eff :=
  Eff.makedirs ["Toolbar"] ::
    toolbar_icons.flatMap fun ic =>
      toolbar_sizes.map fun (size : Nat) =>
        Eff.save ["Toolbar", toolbarFileName ic.1 (size : Int)] (toolbarImg ic.2.1 ic.2.2 size)

/-! ## `create_ui_elements` -/

/-- The alpha of the `i`-th selection-highlight ring: `int(50 - i*4)`. -/
def selection_alpha (i : Int) : Int := 50 - i * 4

/-- The alpha of the `i`-th check-warning ring: `int(100 - i*15)`. -/
def check_alpha (i : Int) : Int := 100 - i * 15

/-- The glowing selection ring: `for i in range(10, 0, -1)`. -/
def selectionHighlightImg : Img :=
  let size : Int := 256
  let center := pydiv size 2
  let radius := pydiv size 2 - 10
  Img.drawn (Img.new "RGBA" 256 256 (.rgba 0 0 0 0))
    ((List.range 10).map fun k =>
      let i : Int := 10 - (k : Int)
      DrawOp.ellipse ((center - radius - i : Int), (center - radius - i : Int),
        (center + radius + i : Int), (center + radius + i : Int))
        none (some (.rgba 0 122 255 (selection_alpha i))) 2)

/-- The move-indicator dot. -/
def moveIndicatorImg : Img :=
  let size : Int := 256
  let center := pydiv size 2
  let dot_radius := pydiv size 6
  Img.drawn (Img.new "RGBA" 256 256 (.rgba 0 0 0 0))
    [DrawOp.ellipse ((center - dot_radius : Int), (center - dot_radius : Int),
       (center + dot_radius : Int), (center + dot_radius : Int))
       (some (.rgba 52 199 89 180)) none 1]

/-- The pulsing check-warning rings: `for i in range(5, 0, -1)`. -/
def checkWarningImg : Img :=
  let size : Int := 256
  let center := pydiv size 2
  let radius := pydiv size 2 - 10
  Img.drawn (Img.new "RGBA" 256 256 (.rgba 0 0 0 0))
    ((List.range 5).map fun k =>
      let i : Int := 5 - (k : Int)
      DrawOp.ellipse ((center - radius - i * 3 : Int), (center - radius - i * 3 : Int),
        (center + radius + i * 3 : Int), (center + radius + i * 3 : Int))
        none (some (.rgba 255 59 48 (check_alpha i))) 3)

/-- The last-move ring. -/
def lastMoveImg : Img :=
  let size : Int := 256
  let center := pydiv size 2
  let radius := pydiv size 2 - 5
  Img.drawn (Img.new "RGBA" 256 256 (.rgba 0 0 0 0))
    [DrawOp.ellipse ((center - radius : Int), (center - radius : Int),
       (center + radius : Int), (center + radius : Int))
       none (some (.rgba 255 149 0 150)) 3]

/-- `create_ui_elements`: one `makedirs`, then the four overlay images under
`UI/`. -/
def create_ui_elements : List Eff :=
  [Eff.makedirs ["UI"],
   Eff.save ["UI", "Selection_Highlight.png"] selectionHighlightImg,
   Eff.save ["UI", "Move_Indicator.png"] moveIndicatorImg,
   Eff.save ["UI", "Check_Warning.png"] checkWarningImg,
   Eff.save ["UI", "Last_Move_Indicator.png"] lastMoveImg]

/-! ## `create_launch_screen` -/

/-- The launch-screen size table: `(width, height, basename)`. -/
def launch_sizes : List (Nat × Nat × String) :=
  [(800, 600, "LaunchScreen_800x600"),
   (1024, 768, "LaunchScreen_1024x768"),
   (1200, 800, "LaunchScreen_1200x800"),
   (1600, 1000, "LaunchScreen_1600x1000")]

/-- One launch-screen image: decorative piece, glyph "棋", and the app name
"Chinese Chess". -/
def launchImg (env : FontEnv) (width height : Nat) : Img :=
  let center_x : Int := pydiv (width : Int) 2
  let center_y : Int := pydiv (height : Int) 2
  let piece_radius : Int := pydiv (min (width : Int) (height : Int)) 8
  let inner_radius : Int := int_floor_mul piece_radius.toNat 85 100
  let font := fontOf (findPieceFontE env (int_floor_mul piece_radius.toNat 120 100) font_paths)
  let bb := env.bbox font "棋"
  let text_width := bb.x1 - bb.x0
  let text_height := bb.y1 - bb.y0
  let text_x := center_x - pydiv text_width 2 - bb.x0
  let text_y := center_y - pydiv text_height 2 - bb.y0 - 40
  let name_font := fontOf (resolveLaunchNameFontE env)
  let nb := env.bbox name_font "Chinese Chess"
  let name_width := nb.x1 - nb.x0
  let name_x := center_x - pydiv name_width 2
  let name_y := center_y + piece_radius + 20
  Img.drawn (Img.new "RGB" width height (.hex "#F5F5F7"))
    [DrawOp.ellipse ((center_x - piece_radius : Int), (center_y - piece_radius - 40 : Int),
       (center_x + piece_radius : Int), (center_y + piece_radius - 40 : Int))
       (some (.hex "#CC0000")) (some (.hex "#990000")) 4,
     DrawOp.ellipse ((center_x - inner_radius : Int), (center_y - inner_radius - 40 : Int),
       (center_x + inner_radius : Int), (center_y + inner_radius - 40 : Int))
       (some (.hex "#F5F0E6")) none 1,
     DrawOp.text ((text_x : ℚ), (text_y : ℚ)) "棋" font (.hex "#CC0000"),
     DrawOp.text ((name_x : ℚ), (name_y : ℚ)) "Chinese Chess" name_font (.hex "#1C1C1E")]

/-- `create_launch_screen`: one `makedirs`, then one save per size-table
entry under `LaunchScreen/`. -/
def create_launch_screen (env : FontEnv) : List Eff :=
  Eff.makedirs ["LaunchScreen"] ::
    launch_sizes.map fun e =>
      Eff.save ["LaunchScreen", e.2.2 ++ ".png"] (launchImg env e.1 e.2.1)

/-! ## The driver (`main`) and cross-routine state

The only mutable state shared between the six generation routines is the
global `random` generator; the filesystem paths they touch are disjoint.
`runRoutine` threads that state: every routine except `create_board_styles`
leaves it untouched and `create_board_styles` replaces it via `seed(42)`
before its first draw. -/

/-- The six top-level generation routines called by `main`. -/
inductive Routine where
  | app_icon
  | board_styles
  | pieces
  | toolbar_icons
  | ui_elements
  | launch_screen
deriving DecidableEq

/-- Run one routine from a global RNG state, yielding its effect trace and
the outgoing state. -/
def runRoutine (env : FontEnv) : Routine → PyRng → List Eff × PyRng
  | .app_icon, s => (create_app_icon env, s)
  | .board_styles, s => create_board_styles s
  | .pieces, s => (create_pieces env, s)
  | .toolbar_icons, s => (create_toolbar_icons, s)
  | .ui_elements, s => (create_ui_elements, s)
  | .launch_screen, s => (create_launch_screen env, s)

/-- The fixed call order of `main` (lines 597–625). -/
def mainOrder : List Routine :=
  [.app_icon, .board_styles, .pieces, .toolbar_icons, .ui_elements, .launch_screen]

/-- The `(path, image)` outputs routine `r` produces when the routines run
in the given order from the given initial RNG state (first occurrence of `r`
in the order). -/
def outputsWithin (env : FontEnv) : List Routine → PyRng → Routine → List (Path × Img)
  | [], _, _ => []
  | r' :: rest, s, r =>
    if r' = r then savesOf (runRoutine env r' s).1
    else outputsWithin env rest (runRoutine env r' s).2 r

/-! ## Filesystem semantics

`execTrace` interprets an effect trace against the set of directories that
exist.  `os.makedirs(d, exist_ok=True)` creates `d` and all its ancestors
and never fails; `image.save(p)` raises (here: `Except.error`) when the
parent directory of `p` does not exist.  No routine has a handler around its
filesystem calls, so the first error aborts the rest of the trace — exactly
Python's exception propagation. -/

/-- The set of existing directories (relative to `ASSETS_DIR`). -/
abbrev FS := List Path

/-- All nonempty prefixes of a path: what `os.makedirs` brings into
existence. -/
def pathPrefixes (p : Path) : List Path :=
  (List.range p.length).map fun k => p.take (k + 1)

/-- Execute one effect. -/
def execEff (fs : FS) : Eff → Except String FS
  | .makedirs p => .ok (pathPrefixes p ++ fs)
  | .save p _ => if p.dropLast ∈ fs then .ok fs else .error "FileNotFoundError"

/-- Execute a trace, propagating the first uncaught error. -/
def execTrace : List Eff → FS → Except String FS
  | [], fs => .ok fs
  | e :: rest, fs =>
    match execEff fs e with
    | .ok fs' => execTrace rest fs'
    | .error m => .error m

/-- Did a run finish without an uncaught exception? -/
def runOk : Except String FS → Bool
  | .ok _ => true
  | .error _ => false

/-- A host with no loadable fonts at all (used to instantiate theorems). -/
def envNone : FontEnv :=
  { pathExists := fun _ => false
    truetypeOk := fun _ => false
    bbox := fun _ _ => ⟨0, 0, 0, 0⟩ }

/-! ## File-layout theorems -/

/-- The fourteen filenames of one piece style/size directory, as the claim
lists them. -/
def expected_piece_names : List String :=
  ["Red_0.png", "Red_1.png", "Red_2.png", "Red_3.png", "Red_4.png", "Red_5.png",
   "Red_6.png", "Black_0.png", "Black_1.png", "Black_2.png", "Black_3.png",
   "Black_4.png", "Black_5.png", "Black_6.png"]

/-- The filenames `create_pieces` saves directly under
`PieceStyles/<style>/<size>/`. -/
def piece_dir_names (env : FontEnv) (style : String) (size : Nat) : List String :=
  (savesOf (create_pieces env)).filterMap fun pi =>
    if pi.1.dropLast = ["PieceStyles", style, toString size] then pi.1.getLast? else none

/-- C2: `create_pieces` produces pieces at three sizes in two styles for
fourteen characters: 84 saves in total, and for every size in
`{64, 128, 256}` and every style in `{Traditional, Modern}` the files saved
under `PieceStyles/<style>/<size>/` are exactly (a permutation of)
`Red_0.png … Red_6.png` and `Black_0.png … Black_6.png`. -/
theorem create_pieces_file_layout (env : FontEnv) :
    (savesOf (create_pieces env)).length = 84 ∧
    (piece_sizes.all fun size => ["Traditional", "Modern"].all fun style =>
      decide (List.Perm (piece_dir_names env style size) expected_piece_names)) = true :=
  ⟨rfl, rfl⟩

/-- C3 counterexample: two distinct labels of the `save_iconset` size table,
`16x16@2x` and `32x32`, share the pixel size 32, so the labels do **not**
correspond to ten distinct sizes (the table's ten pixel sizes are not
pairwise distinct). -/
theorem iconset_label_size_not_injective :
    ¬ (iconset_sizes.map Prod.fst).Nodup ∧
    (32, "16x16@2x") ∈ iconset_sizes ∧ (32, "32x32") ∈ iconset_sizes ∧
    ("16x16@2x" : String) ≠ "32x32" := by decide

/-- C3 (amended): `save_iconset` writes exactly ten PNG files, one per entry
of its size table with the ten labels `16x16 … 512x512@2x`, each file
resized to its entry's pixel size; the ten labels are pairwise distinct (so
the ten filenames are distinct), but the pixel sizes are not — the ten
entries cover only seven distinct pixel sizes. -/
theorem save_iconset_ten_files (img : Img) (name : String) (dir : Path) :
    (savesOf (save_iconset img name dir)).length = 10 ∧
    iconset_sizes.map Prod.snd =
      ["16x16", "16x16@2x", "32x32", "32x32@2x", "128x128",
       "128x128@2x", "256x256", "256x256@2x", "512x512", "512x512@2x"] ∧
    (iconset_sizes.map Prod.snd).Nodup ∧
    (iconset_sizes.map Prod.fst).dedup.length = 7 ∧
    savesOf (save_iconset img name dir) =
      iconset_sizes.map (fun e =>
        (dir ++ [name ++ "_" ++ e.2 ++ ".png"], Img.resized img e.1 e.1)) ∧
    (iconset_sizes.all fun e =>
      ((Img.resized img e.1 e.1).width == e.1) && ((Img.resized img e.1 e.1).height == e.1))
      = true ∧
    (savePaths (save_iconset img "AppIcon" ["Icons", "AppIcon.iconset"])).Nodup :=
  ⟨rfl, rfl, by decide, by decide, rfl, rfl, of_decide_eq_true rfl⟩

/-- C4: `create_toolbar_icons` saves, for each of the five icon names, the
three files `<Name>_18x18.png`, `<Name>_24x24.png` (drawn sizes 18 and 24)
and `<Name>_18x18@2x.png` (drawn size 36, name halved), 15 files in total;
the `@2x` suffix is used exactly when the drawn size exceeds 24. -/
theorem create_toolbar_icons_files :
    (savesOf create_toolbar_icons).length = 15 ∧
    savePaths create_toolbar_icons =
      [["Toolbar", "NewGame_18x18.png"], ["Toolbar", "NewGame_24x24.png"],
       ["Toolbar", "NewGame_18x18@2x.png"],
       ["Toolbar", "Undo_18x18.png"], ["Toolbar", "Undo_24x24.png"],
       ["Toolbar", "Undo_18x18@2x.png"],
       ["Toolbar", "Hint_18x18.png"], ["Toolbar", "Hint_24x24.png"],
       ["Toolbar", "Hint_18x18@2x.png"],
       ["Toolbar", "Settings_18x18.png"], ["Toolbar", "Settings_24x24.png"],
       ["Toolbar", "Settings_18x18@2x.png"],
       ["Toolbar", "Analysis_18x18.png"], ["Toolbar", "Analysis_24x24.png"],
       ["Toolbar", "Analysis_18x18@2x.png"]] ∧
    (∀ size : Int, (toolbarSuffix size == "@2x") = decide (24 < size)) ∧
    toolbarFileName "NewGame" 36 = "NewGame_18x18@2x.png" := by
  refine ⟨rfl, by decide, fun size => ?_, by decide⟩
  unfold toolbarSuffix
  by_cases h : size ≤ 24
  · rw [if_pos h, decide_eq_false (by omega)]; rfl
  · rw [if_neg h, decide_eq_true (by omega)]; rfl

/-- C9: `create_app_icon` writes eleven icon files: the ten files of
`Icons/AppIcon.iconset` produced by `save_iconset`, plus the full-resolution
master saved separately as `Icons/AppIcon_1024.png` at 1024×1024. -/
theorem create_app_icon_eleven_files (env : FontEnv) :
    (savesOf (create_app_icon env)).length = 11 ∧
    savePaths (create_app_icon env) =
      iconset_sizes.map (fun e => ["Icons", "AppIcon.iconset", "AppIcon_" ++ e.2 ++ ".png"]) ++
        [["Icons", "AppIcon_1024.png"]] ∧
    (savedAt (create_app_icon env) ["Icons", "AppIcon_1024.png"]).map
        (fun i => (i.width, i.height)) = some (1024, 1024) :=
  ⟨rfl, rfl, rfl⟩

/-- C5: every generated PNG has non-zero dimensions matching the requested
size table: iconset files are n×n per table entry, the app-icon master is
1024×1024, piece images are s×s for their size s, board textures are
1024×1024, toolbar icons are size×size for their drawn size, UI overlays are
256×256, and launch screens match their (width, height) entries; all these
sizes are non-zero. -/
theorem generated_dimensions_match_tables (env : FontEnv) (img : Img) (s : PyRng) :
    saveDims (save_iconset img "AppIcon" ["Icons", "AppIcon.iconset"]) =
      iconset_sizes.map (fun e => (e.1, e.1)) ∧
    saveDims (create_app_icon env) =
      iconset_sizes.map (fun e => (e.1, e.1)) ++ [(1024, 1024)] ∧
    saveDims (create_pieces env) = piece_sizes.flatMap (fun n => List.replicate 28 (n, n)) ∧
    saveDims (create_board_styles s).1 = List.replicate 3 (1024, 1024) ∧
    saveDims create_toolbar_icons =
      toolbar_icons.flatMap (fun _ => toolbar_sizes.map fun n => (n, n)) ∧
    saveDims create_ui_elements = List.replicate 4 (256, 256) ∧
    saveDims (create_launch_screen env) = launch_sizes.map (fun e => (e.1, e.2.1)) ∧
    ((iconset_sizes.map Prod.fst ++ piece_sizes ++ [1024, 256] ++ toolbar_sizes ++
        launch_sizes.flatMap fun e => [e.1, e.2.1]).all fun n => decide (0 < n)) = true :=
  ⟨rfl, rfl, rfl, rfl, rfl, rfl, rfl, by decide⟩

/-! ## Font resolution (C6) -/

/-- The piece-font candidate loop never lets an exception escape. -/
theorem findPieceFontE_ok (env : FontEnv) (sz : Int) :
    ∀ paths : List String, exOk (findPieceFontE env sz paths) = true := by
  intro paths
  induction paths with
  | nil => rfl
  | cons p rest ih =>
    simp only [findPieceFontE, tryTruetype]
    cases hp : env.pathExists p
    · simpa using ih
    · cases ht : env.truetypeOk p
      · simpa using ih
      · rfl

/-- When no candidate path both exists and loads, the loop falls back to the
default font. -/
theorem findPieceFontE_fallback (env : FontEnv) (sz : Int) :
    ∀ paths : List String,
      (paths.all fun p => !(env.pathExists p && env.truetypeOk p)) = true →
      findPieceFontE env sz paths = .ok Font.default := by
  intro paths
  induction paths with
  | nil => intro _; rfl
  | cons p rest ih =>
    intro h
    rw [List.all_cons, Bool.and_eq_true] at h
    obtain ⟨h1, h2⟩ := h
    simp only [findPieceFontE, tryTruetype]
    cases hp : env.pathExists p
    · simpa using ih h2
    · cases ht : env.truetypeOk p
      · simpa using ih h2
      · rw [hp, ht] at h1; simp at h1

/-- C6: font resolution is total and is the only handled failure: each of
the text-drawing call sites — the app icon (nested try/except over STHeiti
and PingFang), the traditional and modern pieces and the launch-screen glyph
(the shared `font_paths` loop), and the launch-screen app name (nested
try/except over SF Pro Display and Helvetica) — tries its candidate font
paths in order, catches every `truetype` failure, and yields `.ok` for every
host environment; when no candidate is found or loadable it yields the
default font. -/
theorem font_resolution_total (env : FontEnv) (sz : Int) :
    exOk (resolveAppIconFontE env) = true ∧
    exOk (findPieceFontE env sz font_paths) = true ∧
    exOk (resolveLaunchNameFontE env) = true ∧
    ((font_paths.all fun p => !(env.pathExists p && env.truetypeOk p)) = true →
      findPieceFontE env sz font_paths = .ok Font.default) ∧
    (env.truetypeOk "/System/Library/Fonts/STHeiti Light.ttc" = false →
      env.truetypeOk "/System/Library/Fonts/PingFang.ttc" = false →
      resolveAppIconFontE env = .ok Font.default) ∧
    (env.truetypeOk "/System/Library/Fonts/SFProDisplay-Semibold.otf" = false →
      env.truetypeOk "/System/Library/Fonts/Helvetica.ttc" = false →
      resolveLaunchNameFontE env = .ok Font.default) ∧
    (env.pathExists "/System/Library/Fonts/STHeiti Light.ttc" = true →
      env.truetypeOk "/System/Library/Fonts/STHeiti Light.ttc" = true →
      findPieceFontE env sz font_paths =
        .ok (.truetype "/System/Library/Fonts/STHeiti Light.ttc" sz)) := by
  refine ⟨?_, findPieceFontE_ok env sz font_paths, ?_, findPieceFontE_fallback env sz font_paths,
    ?_, ?_, ?_⟩
  · simp only [resolveAppIconFontE, tryTruetype]
    cases h1 : env.truetypeOk "/System/Library/Fonts/STHeiti Light.ttc"
    · cases h2 : env.truetypeOk "/System/Library/Fonts/PingFang.ttc" <;> rfl
    · rfl
  · simp only [resolveLaunchNameFontE, tryTruetype]
    cases h1 : env.truetypeOk "/System/Library/Fonts/SFProDisplay-Semibold.otf"
    · cases h2 : env.truetypeOk "/System/Library/Fonts/Helvetica.ttc" <;> rfl
    · rfl
  · intro h1 h2
    simp only [resolveAppIconFontE, tryTruetype, h1, h2]
    rfl
  · intro h1 h2
    simp only [resolveLaunchNameFontE, tryTruetype, h1, h2]
    rfl
  · intro h1 h2
    simp only [findPieceFontE, font_paths, tryTruetype, h1, h2]
    rfl

/-- Witness for C6 at a host with no fonts: all resolvers succeed and fall
back to the default font. -/
theorem font_resolution_total_w :
    exOk (resolveAppIconFontE envNone) = true ∧
    (font_paths.all fun p => !(envNone.pathExists p && envNone.truetypeOk p)) = true ∧
    findPieceFontE envNone 35 font_paths = .ok Font.default ∧
    resolveAppIconFontE envNone = .ok Font.default ∧
    resolveLaunchNameFontE envNone = .ok Font.default :=
  ⟨(font_resolution_total envNone 35).1,
   by decide,
   (font_resolution_total envNone 35).2.2.2.1 (by decide),
   (font_resolution_total envNone 35).2.2.2.2.1 rfl rfl,
   (font_resolution_total envNone 35).2.2.2.2.2.1 rfl rfl⟩

/-! ## Filesystem failure propagation (C7) -/

/-- A trace whose first effect saves into a missing directory aborts with an
uncaught `FileNotFoundError`. -/
theorem execTrace_save_missing (p : Path) (i : Img) (rest : List Eff) (fs : FS)
    (h : p.dropLast ∉ fs) :
    execTrace (Eff.save p i :: rest) fs = .error "FileNotFoundError" := by
  simp only [execTrace, execEff]
  rw [if_neg h]

/-- C7: filesystem failures are unhandled and propagate.
`create_board_styles` issues no `makedirs` at all (its whole trace is bare
saves), so when `BoardStyles/` does not exist its first save raises and the
error propagates out of the routine uncaught; with the directory present the
same trace runs clean.  Every other generation routine does call
`os.makedirs` and consequently succeeds even on an empty filesystem. -/
theorem board_styles_missing_dir_propagates (env : FontEnv) (fs : FS) (s : PyRng)
    (h : (["BoardStyles"] : Path) ∉ fs) :
    ((create_board_styles s).1.all fun e => !e.isMakedirs) = true ∧
    execTrace (create_board_styles s).1 fs = .error "FileNotFoundError" ∧
    runOk (execTrace (create_board_styles s).1 [["BoardStyles"]]) = true ∧
    (create_app_icon env).any Eff.isMakedirs = true ∧
    (create_pieces env).any Eff.isMakedirs = true ∧
    create_toolbar_icons.any Eff.isMakedirs = true ∧
    create_ui_elements.any Eff.isMakedirs = true ∧
    (create_launch_screen env).any Eff.isMakedirs = true ∧
    runOk (execTrace (create_app_icon env) []) = true ∧
    runOk (execTrace (create_pieces env) []) = true ∧
    runOk (execTrace create_toolbar_icons []) = true ∧
    runOk (execTrace create_ui_elements []) = true ∧
    runOk (execTrace (create_launch_screen env) []) = true := by
  refine ⟨rfl, ?_, rfl, rfl, rfl, rfl, rfl, rfl, rfl, rfl, rfl, rfl, rfl⟩
  exact execTrace_save_missing _ _ _ fs h

/-- Witness for C7 on the empty filesystem. -/
theorem board_styles_missing_dir_propagates_w :
    (["BoardStyles"] : Path) ∉ ([] : FS) ∧
    execTrace (create_board_styles 0).1 [] = .error "FileNotFoundError" :=
  ⟨by decide, (board_styles_missing_dir_propagates envNone [] 0 (by decide)).2.1⟩

/-! ## Order independence (C8) -/

/-- Every routine's effect trace is independent of the incoming global RNG
state: `create_board_styles` replaces the state with `seed(42)` before its
first draw, and no other routine touches the generator. -/
theorem runRoutine_trace_const (env : FontEnv) (r : Routine) (s s' : PyRng) :
    (runRoutine env r s).1 = (runRoutine env r s').1 := by
  cases r <;> rfl

/-- The outputs a routine produces when it is run somewhere in `mainOrder`
(its canonical outputs). -/
def routineSaves (env : FontEnv) (r : Routine) : List (Path × Img) :=
  savesOf (runRoutine env r 0).1

/-- Within any order containing it, a routine produces its canonical
outputs, whatever RNG state reaches it. -/
theorem outputsWithin_eq_of_mem (env : FontEnv) :
    ∀ (order : List Routine) (s : PyRng) (r : Routine), r ∈ order →
      outputsWithin env order s r = routineSaves env r := by
  intro order
  induction order with
  | nil => intro s r h; exact absurd h (List.not_mem_nil r)
  | cons r' rest ih =>
    intro s r h
    by_cases hr : r' = r
    · simp only [outputsWithin, if_pos hr]
      subst hr
      exact congrArg savesOf (runRoutine_trace_const env r' s 0)
    · simp only [outputsWithin, if_neg hr]
      exact ih _ r ((List.mem_cons.mp h).resolve_left fun he => hr he.symm)

/-- C8: ordering of the six generation routines is cosmetic: for every
permutation of `main`'s fixed call order and any two initial global RNG
states, each routine produces exactly the same `(path, image)` outputs as it
does when `main` runs them in its fixed order — the only cross-routine
mutable state, the global random generator, is re-seeded by
`create_board_styles` before every use. -/
theorem routine_order_cosmetic (env : FontEnv) (order : List Routine)
    (h : List.Perm order mainOrder) (s s' : PyRng) (r : Routine) :
    outputsWithin env order s r = outputsWithin env mainOrder s' r := by
  have hmain : r ∈ mainOrder := by cases r <;> decide
  have horder : r ∈ order := h.mem_iff.mpr hmain
  rw [outputsWithin_eq_of_mem env order s r horder,
      outputsWithin_eq_of_mem env mainOrder s' r hmain]

/-- Witness for C8: the fully reversed order and two different RNG states
give `create_board_styles` the same outputs as `main`'s order. -/
theorem routine_order_cosmetic_w :
    List.Perm mainOrder.reverse mainOrder ∧
    outputsWithin envNone mainOrder.reverse 0 Routine.board_styles =
      outputsWithin envNone mainOrder 1 Routine.board_styles :=
  ⟨List.reverse_perm mainOrder,
   routine_order_cosmetic envNone mainOrder.reverse (List.reverse_perm mainOrder) 0 1
     Routine.board_styles⟩

/-! ## Colour-component ranges (C10) -/

/-- Is an integer a valid 8-bit colour component? -/
def byteOk (v : Int) : Bool := decide (0 ≤ v) && decide (v ≤ 255)

/-- All components of a computed colour are valid bytes (hex strings are
literal constants, not computed components). -/
def colorOk : Color → Bool
  | .hex _ => true
  | .rgb r g b => byteOk r && byteOk g && byteOk b
  | .rgba r g b a => byteOk r && byteOk g && byteOk b && byteOk a
  | .gray v => byteOk v

/-- The colour arguments of one drawing call. -/
def opFillColors : DrawOp → List Color
  | .line _ f _ => [f]
  | .rectangle _ f => [f]
  | .ellipse _ f o _ => f.toList ++ o.toList
  | .arc _ _ _ f _ => [f]
  | .polygon _ f => [f]
  | .roundedRectangle _ _ f => [f]
  | .text _ _ _ f => [f]

/-- All colour arguments of a drawing call are in range. -/
def opColorsOk (op : DrawOp) : Bool := (opFillColors op).all colorOk

/-- The clamp `max(0, min(255, c))` always lands in `[0, 255]`. -/
theorem pyClamp_mem (c : Int) : 0 ≤ pyClamp c ∧ pyClamp c ≤ 255 :=
  ⟨le_max_left 0 _, max_le (by norm_num) (min_le_left _ _)⟩

/-- `byteOk` holds of every clamped component. -/
theorem byteOk_pyClamp (c : Int) : byteOk (pyClamp c) = true := by
  unfold byteOk
  rw [decide_eq_true (pyClamp_mem c).1, decide_eq_true (pyClamp_mem c).2]
  rfl

/-- Every wood-grain stroke drawn from any RNG state has all colour
components in `[0, 255]`. -/
theorem grain_color_ok (s : PyRng) : opColorsOk (grainStep s).1 = true := by
  simp only [grainStep, opColorsOk, opFillColors, List.all_cons, List.all_nil, colorOk,
    byteOk_pyClamp, Bool.and_self, Bool.and_true]

/-- C10: every computed colour component passed to a draw call lies in
`[0, 255]`: the wood-grain colour clamps each channel with
`max(0, min(255, c + color_var))` for `color_var ∈ [-20, 20]` (and `randint`
indeed yields values in that interval), the selection-highlight ring alphas
`50 - 4i` for `i` from 10 down to 1 all lie in `[10, 46]`, and the
check-warning ring alphas `100 - 15i` for `i` from 5 down to 1 all lie in
`[25, 85]`; accordingly every colour in the generated grain strokes and UI
ring images passes the byte-range check. -/
theorem draw_color_components_in_range :
    (∀ color_var : Int, -20 ≤ color_var → color_var ≤ 20 →
      (0 ≤ pyClamp (232 + color_var) ∧ pyClamp (232 + color_var) ≤ 255) ∧
      (0 ≤ pyClamp (212 + color_var) ∧ pyClamp (212 + color_var) ≤ 255) ∧
      (0 ≤ pyClamp (162 + color_var) ∧ pyClamp (162 + color_var) ≤ 255)) ∧
    (∀ s : PyRng, -20 ≤ (randint (-20) 20 s).1 ∧ (randint (-20) 20 s).1 ≤ 20) ∧
    (∀ s : PyRng, opColorsOk (grainStep s).1 = true) ∧
    (∀ i : Int, 1 ≤ i → i ≤ 10 → 10 ≤ selection_alpha i ∧ selection_alpha i ≤ 46) ∧
    (∀ i : Int, 1 ≤ i → i ≤ 5 → 25 ≤ check_alpha i ∧ check_alpha i ≤ 85) := by
  refine ⟨?_, ?_, grain_color_ok, ?_, ?_⟩
  · intro v _ _
    exact ⟨pyClamp_mem _, pyClamp_mem _, pyClamp_mem _⟩
  · intro s
    have h41 : ((20 : Int) - (-20) + 1).toNat = 41 := rfl
    simp only [randint, h41]
    have := Nat.mod_lt (rngStep s) (show 0 < 41 by decide)
    omega
  · intro i h1 h2
    unfold selection_alpha
    omega
  · intro i h1 h2
    unfold check_alpha
    omega

/-- Witness for C10 at concrete inputs. -/
theorem draw_color_components_in_range_w :
    ((-20 : Int) ≤ 20 ∧ (20 : Int) ≤ 20 ∧ (1 : Int) ≤ 1 ∧ (1 : Int) ≤ 10 ∧
      (1 : Int) ≤ 5) ∧
    (0 ≤ pyClamp (232 + 20) ∧ pyClamp (232 + 20) ≤ 255) ∧
    (10 ≤ selection_alpha 1 ∧ selection_alpha 1 ≤ 46) ∧
    (25 ≤ check_alpha 1 ∧ check_alpha 1 ≤ 85) ∧
    opColorsOk (grainStep 0).1 = true :=
  ⟨by decide,
   (draw_color_components_in_range.1 20 (by decide) (by decide)).1,
   draw_color_components_in_range.2.2.2.1 1 (by decide) (by decide),
   draw_color_components_in_range.2.2.2.2 1 (by decide) (by decide),
   draw_color_components_in_range.2.2.1 0⟩

end GenAssets
